import Mathlib

/-!
Shallow embedding of the coal-stock-manager's stock-ledger core.

The embedded code is:
  * `src/server/src/handlers/production.ts` (`createProductionRecord`),
  * `src/server/src/handlers/barging.ts` (`createBargingRecord`),
  * the stock handler module (`getStock`/`createStockAdjustment`/
    `approveStockAdjustment`/`updateStockFromProduction`/
    `updateStockFromBarging`),
  * the table shapes from `src/server/src/db/schema.ts`, and
  * the zod input schemas plus the tRPC router that applies them.

Modelling conventions:
  * `numeric(12,2)` columns and JavaScript numbers are both modelled as `Rat`
    (exact arithmetic); `parseFloat` on a numeric column round-trip is the
    identity in this model.
  * Timestamps are abstract `Nat` ticks; each mutator takes the current tick
    `now` (the source calls `new Date()`).
  * A thrown `Error` inside a handler is `Except.error`; because every throw
    site in the embedded handlers occurs either before the first write or
    inside a `db.transaction` (which rolls back on throw), an error outcome
    leaves the database unchanged, which `Except.error` (carrying no state)
    captures.
  * Each mutator that reads a stock row and later writes it takes an
    interference function `mid : List StockRow → List StockRow` applied to
    the stock table between that read and the write.  `mid` stands for
    writes committed by concurrent transactions inside the race window; the
    sequential (isolated) handler is the instance `mid = id`.
  * SQL `UPDATE ... WHERE p ... RETURNING` is `updateWhere p f`, returning
    the new table together with the list of updated rows.
  * SQL `INSERT` is list append; `serial` primary keys are `next…Id`
    counters in the database state.  The `stock` table of `schema.ts` has
    *no* uniqueness constraint on `(contractor_id, jetty_id)` (only the
    serial primary key), so an insert never fails and may produce a second
    row for a pair.
-/

namespace CoalStock

/-- Error kinds, one constructor per distinct `throw new Error(...)` site of
the embedded handlers (plus the zod `positive()` rejection applied by the
tRPC router).  Payloads record the data interpolated into the source's
message string. -/
inductive Err where
  /-- production.ts: `'Contractor not found or inactive'` -/
  | contractorNotFoundOrInactive
  /-- production.ts: `'Jetty not found or inactive'` -/
  | jettyNotFoundOrInactive
  /-- production.ts: `'Operator not found or inactive'` -/
  | operatorNotFoundOrInactive
  /-- barging.ts: `'Contractor with ID ${id} not found'` -/
  | contractorNotFound (id : Nat)
  /-- barging.ts: `'Contractor with ID ${id} is inactive'` -/
  | contractorInactive (id : Nat)
  /-- barging.ts: `'Jetty with ID ${id} not found'` -/
  | jettyNotFound (id : Nat)
  /-- barging.ts: `'Jetty with ID ${id} is inactive'` -/
  | jettyInactive (id : Nat)
  /-- barging.ts: `'Operator with ID ${id} not found'` -/
  | operatorNotFound (id : Nat)
  /-- barging.ts: `'Operator with ID ${id} is inactive'` -/
  | operatorInactive (id : Nat)
  /-- barging.ts: `'No stock found for contractor ${c} at jetty ${j}'` -/
  | noStockFound (contractorId jettyId : Nat)
  /-- barging.ts: `'Barging tonnage must be positive'` -/
  | bargingTonnageNotPositive
  /-- barging.ts: `'Insufficient stock. Available: ${a} tons, Requested: ${r}
  tons'` — the only insufficiency message that carries both amounts. -/
  | insufficientStock (available requested : Rat)
  /-- barging.ts: `'Stock was modified by another operation. Please try
  again.'` -/
  | stockModifiedByAnother
  /-- stock handler, createStockAdjustment: `'Stock record not found'` -/
  | stockRecordNotFound
  /-- stock handler, createStockAdjustment: `'Stock cannot be negative'` -/
  | stockCannotBeNegative
  /-- stock handler: `'Stock record was modified by another user. Please try
  again.'` -/
  | stockModifiedRetry
  /-- stock handler, updateStockFromBarging: `'No stock found for this
  contractor-jetty combination'` -/
  | noStockFoundForCombination
  /-- stock handler, updateStockFromBarging: `'Insufficient stock available'`
  — carries no amounts. -/
  | insufficientStockAvailable
  /-- stock handler, approveStockAdjustment: `'Stock adjustment not found'` -/
  | adjustmentNotFound
  /-- stock handler, approveStockAdjustment: `'Stock adjustment is already
  approved'` -/
  | adjustmentAlreadyApproved
  /-- zod `tonnage: z.number().positive()` rejection, applied by the tRPC
  router before the handler runs. -/
  | invalidTonnage
  /-- model artifact for paths the source cannot reach (indexing `[0]` into
  a result list that an earlier check made nonempty). -/
  | internalError
  deriving Repr, DecidableEq

/-- A row of `contractors`, `jetties` or `users`; only the two fields the
embedded handlers read (`id`, `is_active`) are modelled. -/
structure Entity where
  id : Nat
  is_active : Bool
  deriving Repr, DecidableEq

/-- A row of the `stock` table (`schema.ts` lines 92-101): serial `id`,
`contractor_id`, `jetty_id`, `numeric` `tonnage`, `last_updated`, `version`.
`created_at`/`updated_at` bookkeeping timestamps are omitted. -/
structure StockRow where
  id : Nat
  contractor_id : Nat
  jetty_id : Nat
  tonnage : Rat
  last_updated : Nat
  version : Nat
  deriving Repr, DecidableEq

/-- A row of `stock_adjustments` (`schema.ts` lines 104-118). -/
structure AdjRow where
  id : Nat
  stock_id : Nat
  adjusted_by : Nat
  previous_tonnage : Rat
  new_tonnage : Rat
  adjustment_amount : Rat
  reason : String
  reason_description : String
  reference_document : Option String
  attachment : Option String
  approved_by : Option Nat
  approved_at : Option Nat
  deriving Repr, DecidableEq

/-- A row of `production_records`. -/
structure ProdRec where
  id : Nat
  date_time : Nat
  contractor_id : Nat
  truck_number : String
  tonnage : Rat
  coal_grade : String
  jetty_id : Nat
  document_photo : Option String
  operator_id : Nat
  notes : Option String
  deriving Repr, DecidableEq

/-- A row of `barging_records`. -/
structure BargeRec where
  id : Nat
  date_time : Nat
  contractor_id : Nat
  ship_batch_number : String
  tonnage : Rat
  jetty_id : Nat
  buyer : Option String
  loading_document : Option String
  operator_id : Nat
  notes : Option String
  deriving Repr, DecidableEq

/-- A row of the append-only `audit_log`. -/
structure AuditRow where
  user_id : Nat
  action : String
  table_name : String
  record_id : Option Nat
  deriving Repr, DecidableEq

/-- The database state: the tables the embedded handlers touch, plus the
`serial` id counters. -/
structure DB where
  contractors : List Entity
  jetties : List Entity
  users : List Entity
  stock : List StockRow
  adjustments : List AdjRow
  productionRecords : List ProdRec
  bargingRecords : List BargeRec
  auditLog : List AuditRow
  nextStockId : Nat
  nextAdjId : Nat
  nextProdId : Nat
  nextBargeId : Nat
  deriving Repr, DecidableEq

/-- Input of `createProductionRecord` (`createProductionRecordInputSchema`). -/
structure CreateProductionRecordInput where
  date_time : Nat
  contractor_id : Nat
  truck_number : String
  tonnage : Rat
  coal_grade : String
  jetty_id : Nat
  document_photo : Option String
  operator_id : Nat
  notes : Option String
  deriving Repr, DecidableEq

/-- Input of `createBargingRecord` (`createBargingRecordInputSchema`). -/
structure CreateBargingRecordInput where
  date_time : Nat
  contractor_id : Nat
  ship_batch_number : String
  tonnage : Rat
  jetty_id : Nat
  buyer : Option String
  loading_document : Option String
  operator_id : Nat
  notes : Option String
  deriving Repr, DecidableEq

/-- Input of `createStockAdjustment` (`createStockAdjustmentInputSchema`);
`adjustment_amount` is a plain `z.number()`, signed and unconstrained. -/
structure CreateStockAdjustmentInput where
  stock_id : Nat
  adjustment_amount : Rat
  reason : String
  reason_description : String
  reference_document : Option String
  attachment : Option String
  adjusted_by : Nat
  deriving Repr, DecidableEq

/-- SQL `UPDATE ... WHERE p ... SET (f) RETURNING`: first component is the
new table, second the list of rows after update (drizzle's `.returning()`). -/
def updateWhere (p : α → Bool) (f : α → α) : List α → List α × List α
  | [] => ([], [])
  | r :: rs =>
    let rest := updateWhere p f rs
    if p r then (f r :: rest.1, f r :: rest.2) else (r :: rest.1, rest.2)

/-- `SELECT ... WHERE id = i AND is_active = true LIMIT 1` (production.ts
entity validation). -/
def findActive (l : List Entity) (i : Nat) : Option Entity :=
  l.find? (fun e => e.id == i && e.is_active)

/-- `SELECT ... WHERE contractor_id = c AND jetty_id = j` first row. -/
def findStockPair (stock : List StockRow) (c j : Nat) : Option StockRow :=
  stock.find? (fun r => r.contractor_id == c && r.jetty_id == j)

/-- `createProductionRecord` of `production.ts` with an explicit interference
window.  Steps mirror the source: validate contractor / jetty / operator
(each via an `is_active`-filtered lookup), insert the production record
(*no enclosing transaction*), read the stock row for the pair, then either
run `UPDATE ... WHERE id = current.id AND version = current.version` —
whose affected-row count the source never checks — or insert a fresh stock
row with version 1.  `mid` is applied to the stock table between the stock
read and the stock write. -/
def createProductionRecordW (now : Nat) (db : DB)
    (mid : List StockRow → List StockRow)
    (input : CreateProductionRecordInput) : Except Err (DB × ProdRec) :=
  match findActive db.contractors input.contractor_id with
  | none => .error .contractorNotFoundOrInactive
  | some _ =>
  match findActive db.jetties input.jetty_id with
  | none => .error .jettyNotFoundOrInactive
  | some _ =>
  match findActive db.users input.operator_id with
  | none => .error .operatorNotFoundOrInactive
  | some _ =>
    let created : ProdRec :=
      { id := db.nextProdId, date_time := input.date_time,
        contractor_id := input.contractor_id,
        truck_number := input.truck_number, tonnage := input.tonnage,
        coal_grade := input.coal_grade, jetty_id := input.jetty_id,
        document_photo := input.document_photo,
        operator_id := input.operator_id, notes := input.notes }
    let db1 : DB :=
      { db with productionRecords := db.productionRecords ++ [created],
                nextProdId := db.nextProdId + 1 }
    match findStockPair db1.stock input.contractor_id input.jetty_id with
    | some currentStock =>
      let newTonnage := currentStock.tonnage + input.tonnage
      let afterMid := mid db1.stock
      let updated := updateWhere
        (fun r => r.id == currentStock.id && r.version == currentStock.version)
        (fun r => { r with tonnage := newTonnage, last_updated := now,
                           version := currentStock.version + 1 })
        afterMid
      .ok ({ db1 with stock := updated.1 }, created)
    | none =>
      let afterMid := mid db1.stock
      let newRow : StockRow :=
        { id := db1.nextStockId, contractor_id := input.contractor_id,
          jetty_id := input.jetty_id, tonnage := input.tonnage,
          last_updated := now, version := 1 }
      .ok ({ db1 with stock := afterMid ++ [newRow],
                      nextStockId := db1.nextStockId + 1 }, created)

/-- Sequential (isolated) `createProductionRecord`. -/
def createProductionRecord (now : Nat) (db : DB)
    (input : CreateProductionRecordInput) : Except Err (DB × ProdRec) :=
  createProductionRecordW now db id input

/-- `createBargingRecord` of `barging.ts` with an explicit interference
window.  The whole body runs in `db.transaction`; steps mirror the source:
entity lookups with separate not-found / inactive errors, stock lookup,
`tonnage <= 0` check, `currentStock < tonnage` check, barging-record insert,
then `UPDATE ... WHERE id AND version ... SET version = version + 1
RETURNING`; an empty returned list throws, rolling everything back. -/
def createBargingRecordW (now : Nat) (db : DB)
    (mid : List StockRow → List StockRow)
    (input : CreateBargingRecordInput) : Except Err (DB × BargeRec) :=
  match db.contractors.find? (fun e => e.id == input.contractor_id) with
  | none => .error (.contractorNotFound input.contractor_id)
  | some c =>
  if !c.is_active then .error (.contractorInactive input.contractor_id) else
  match db.jetties.find? (fun e => e.id == input.jetty_id) with
  | none => .error (.jettyNotFound input.jetty_id)
  | some j =>
  if !j.is_active then .error (.jettyInactive input.jetty_id) else
  match db.users.find? (fun e => e.id == input.operator_id) with
  | none => .error (.operatorNotFound input.operator_id)
  | some o =>
  if !o.is_active then .error (.operatorInactive input.operator_id) else
  match findStockPair db.stock input.contractor_id input.jetty_id with
  | none => .error (.noStockFound input.contractor_id input.jetty_id)
  | some stockRecord =>
    let currentStock := stockRecord.tonnage
    if input.tonnage ≤ 0 then .error .bargingTonnageNotPositive else
    if currentStock < input.tonnage then
      .error (.insufficientStock currentStock input.tonnage) else
    let created : BargeRec :=
      { id := db.nextBargeId, date_time := input.date_time,
        contractor_id := input.contractor_id,
        ship_batch_number := input.ship_batch_number,
        tonnage := input.tonnage, jetty_id := input.jetty_id,
        buyer := input.buyer, loading_document := input.loading_document,
        operator_id := input.operator_id, notes := input.notes }
    let db1 : DB :=
      { db with bargingRecords := db.bargingRecords ++ [created],
                nextBargeId := db.nextBargeId + 1 }
    let newTonnage := currentStock - input.tonnage
    let afterMid := mid db1.stock
    let updated := updateWhere
      (fun r => r.id == stockRecord.id && r.version == stockRecord.version)
      (fun r => { r with tonnage := newTonnage, last_updated := now,
                         version := r.version + 1 })
      afterMid
    if updated.2.isEmpty then .error .stockModifiedByAnother
    else .ok ({ db1 with stock := updated.1 }, created)

/-- Sequential (isolated) `createBargingRecord`. -/
def createBargingRecord (now : Nat) (db : DB)
    (input : CreateBargingRecordInput) : Except Err (DB × BargeRec) :=
  createBargingRecordW now db id input

/-- `createStockAdjustment` of the stock handler with an explicit
interference window.  Mirrors the source: the stock row is read *outside*
the transaction; `newTonnage = previousTonnage + adjustment_amount` is
checked `< 0` before the transaction; inside the transaction the row's
version is re-checked against the pre-transaction read, the stock row is
updated (`WHERE id` only, version set to `originalStock.version + 1`), the
adjustment journal row and an audit row are inserted.  All three writes are
in one transaction. -/
def createStockAdjustmentW (now : Nat) (db : DB)
    (mid : List StockRow → List StockRow)
    (input : CreateStockAdjustmentInput) : Except Err (DB × AdjRow) :=
  match db.stock.find? (fun r => r.id == input.stock_id) with
  | none => .error .stockRecordNotFound
  | some originalStock =>
    let previousTonnage := originalStock.tonnage
    let newTonnage := previousTonnage + input.adjustment_amount
    if newTonnage < 0 then .error .stockCannotBeNegative else
    let afterMid := mid db.stock
    match afterMid.find?
        (fun r => r.id == input.stock_id && r.version == originalStock.version) with
    | none => .error .stockModifiedRetry
    | some _ =>
      let updated := updateWhere (fun r => r.id == input.stock_id)
        (fun r => { r with tonnage := newTonnage, last_updated := now,
                           version := originalStock.version + 1 })
        afterMid
      let adjustment : AdjRow :=
        { id := db.nextAdjId, stock_id := input.stock_id,
          adjusted_by := input.adjusted_by,
          previous_tonnage := previousTonnage, new_tonnage := newTonnage,
          adjustment_amount := input.adjustment_amount,
          reason := input.reason,
          reason_description := input.reason_description,
          reference_document := input.reference_document,
          attachment := input.attachment,
          approved_by := none, approved_at := none }
      let audit : AuditRow :=
        { user_id := input.adjusted_by, action := "stock_adjustment_create",
          table_name := "stock_adjustments", record_id := some adjustment.id }
      .ok ({ db with stock := updated.1,
                     adjustments := db.adjustments ++ [adjustment],
                     auditLog := db.auditLog ++ [audit],
                     nextAdjId := db.nextAdjId + 1 }, adjustment)

/-- Sequential (isolated) `createStockAdjustment`. -/
def createStockAdjustment (now : Nat) (db : DB)
    (input : CreateStockAdjustmentInput) : Except Err (DB × AdjRow) :=
  createStockAdjustmentW now db id input

/-- `approveStockAdjustment` of the stock handler.  In one transaction:
look the adjustment up, fail `'Stock adjustment not found'` when absent and
`'Stock adjustment is already approved'` when `approved_by` is set,
otherwise set `approved_by`/`approved_at` (`UPDATE ... WHERE id RETURNING`)
and insert an audit row.  The stock table is never touched. -/
def approveStockAdjustment (now : Nat) (db : DB)
    (adjustmentId approvedBy : Nat) : Except Err (DB × AdjRow) :=
  match db.adjustments.find? (fun a => a.id == adjustmentId) with
  | none => .error .adjustmentNotFound
  | some found =>
    if found.approved_by.isSome then .error .adjustmentAlreadyApproved else
    let updated := updateWhere (fun a => a.id == adjustmentId)
      (fun a => { a with approved_by := some approvedBy,
                         approved_at := some now })
      db.adjustments
    match updated.2.head? with
    | none => .error .internalError
    | some result =>
      let audit : AuditRow :=
        { user_id := approvedBy, action := "stock_adjustment_approve",
          table_name := "stock_adjustments", record_id := some adjustmentId }
      .ok ({ db with adjustments := updated.1,
                     auditLog := db.auditLog ++ [audit] }, result)

/-- `updateStockFromProduction` of the stock handler with an explicit
interference window.  Mirrors the source: the stock row for the pair is
read outside the transaction; inside the transaction, if a row was found
its version is re-checked and the row is set to
`parseFloat(original.tonnage) + tonnage` (no sign or non-negativity check
anywhere), `version := original.version + 1`; if no row was found a fresh
row with `tonnage` and version 1 is inserted unconditionally. -/
def updateStockFromProductionW (now : Nat) (db : DB)
    (mid : List StockRow → List StockRow)
    (contractorId jettyId : Nat) (tonnage : Rat) : Except Err DB :=
  match findStockPair db.stock contractorId jettyId with
  | some originalStock =>
    let newTonnage := originalStock.tonnage + tonnage
    let afterMid := mid db.stock
    match afterMid.find?
        (fun r => r.id == originalStock.id && r.version == originalStock.version) with
    | none => .error .stockModifiedRetry
    | some _ =>
      let updated := updateWhere (fun r => r.id == originalStock.id)
        (fun r => { r with tonnage := newTonnage, last_updated := now,
                           version := originalStock.version + 1 })
        afterMid
      .ok { db with stock := updated.1 }
  | none =>
    let afterMid := mid db.stock
    let newRow : StockRow :=
      { id := db.nextStockId, contractor_id := contractorId,
        jetty_id := jettyId, tonnage := tonnage,
        last_updated := now, version := 1 }
    .ok { db with stock := afterMid ++ [newRow],
                  nextStockId := db.nextStockId + 1 }

/-- Sequential (isolated) `updateStockFromProduction`. -/
def updateStockFromProduction (now : Nat) (db : DB)
    (contractorId jettyId : Nat) (tonnage : Rat) : Except Err DB :=
  updateStockFromProductionW now db id contractorId jettyId tonnage

/-- `updateStockFromBarging` of the stock handler with an explicit
interference window.  Mirrors the source: the stock row is read outside the
transaction and must exist (`'No stock found for this contractor-jetty
combination'`); `currentTonnage < tonnage` fails with `'Insufficient stock
available'` (no amounts in the message) before any write; inside the
transaction the version is re-checked and the row set to
`currentTonnage - tonnage`, `version := original.version + 1`. -/
def updateStockFromBargingW (now : Nat) (db : DB)
    (mid : List StockRow → List StockRow)
    (contractorId jettyId : Nat) (tonnage : Rat) : Except Err DB :=
  match findStockPair db.stock contractorId jettyId with
  | none => .error .noStockFoundForCombination
  | some originalStock =>
    let currentTonnage := originalStock.tonnage
    if currentTonnage < tonnage then .error .insufficientStockAvailable else
    let newTonnage := currentTonnage - tonnage
    let afterMid := mid db.stock
    match afterMid.find?
        (fun r => r.id == originalStock.id && r.version == originalStock.version) with
    | none => .error .stockModifiedRetry
    | some _ =>
      let updated := updateWhere (fun r => r.id == originalStock.id)
        (fun r => { r with tonnage := newTonnage, last_updated := now,
                           version := originalStock.version + 1 })
        afterMid
      .ok { db with stock := updated.1 }

/-- Sequential (isolated) `updateStockFromBarging`. -/
def updateStockFromBarging (now : Nat) (db : DB)
    (contractorId jettyId : Nat) (tonnage : Rat) : Except Err DB :=
  updateStockFromBargingW now db id contractorId jettyId tonnage

/-- The `production.create` tRPC endpoint: the router first runs the input
through `createProductionRecordInputSchema`, whose
`tonnage: z.number().positive()` rejects any `tonnage ≤ 0` before the
handler (and hence before any write) runs. -/
def productionCreateEndpoint (now : Nat) (db : DB)
    (input : CreateProductionRecordInput) : Except Err (DB × ProdRec) :=
  if 0 < input.tonnage then createProductionRecord now db input
  else .error .invalidTonnage

/-- The `barging.create` tRPC endpoint: `createBargingRecordInputSchema`
also requires `tonnage` positive before the handler runs. -/
def bargingCreateEndpoint (now : Nat) (db : DB)
    (input : CreateBargingRecordInput) : Except Err (DB × BargeRec) :=
  if 0 < input.tonnage then createBargingRecord now db input
  else .error .invalidTonnage

/-! Helper lemmas about the `UPDATE ... WHERE ... RETURNING` primitive. -/

theorem mem_updateWhere_fst {p : α → Bool} {f : α → α} {l : List α} {a : α}
    (h : a ∈ (updateWhere p f l).1) :
    a ∈ l ∨ ∃ b ∈ l, p b = true ∧ a = f b := by
  induction l with
  | nil => simp [updateWhere] at h
  | cons r rs ih =>
    by_cases hp : p r
    · simp only [updateWhere, hp, if_true] at h
      rcases List.mem_cons.mp h with h1 | h1
      · exact Or.inr ⟨r, List.mem_cons_self r rs, hp, h1⟩
      · rcases ih h1 with h2 | ⟨b, hb, hpb, hab⟩
        · exact Or.inl (List.mem_cons_of_mem r h2)
        · exact Or.inr ⟨b, List.mem_cons_of_mem r hb, hpb, hab⟩
    · simp only [updateWhere, hp, if_false] at h
      rcases List.mem_cons.mp h with h1 | h1
      · exact Or.inl (h1 ▸ List.mem_cons_self r rs)
      · rcases ih h1 with h2 | ⟨b, hb, hpb, hab⟩
        · exact Or.inl (List.mem_cons_of_mem r h2)
        · exact Or.inr ⟨b, List.mem_cons_of_mem r hb, hpb, hab⟩

theorem updateWhere_mem_fst {p : α → Bool} {f : α → α} {l : List α} {b : α}
    (hb : b ∈ l) (hp : p b = true) : f b ∈ (updateWhere p f l).1 := by
  induction l with
  | nil => cases hb
  | cons r rs ih =>
    rcases List.mem_cons.mp hb with h1 | h1
    · subst h1
      simp only [updateWhere, hp, if_true]
      exact List.mem_cons_self _ _
    · by_cases hpr : p r <;> simp only [updateWhere, hpr, if_true, if_false] <;>
        exact List.mem_cons_of_mem _ (ih h1)

theorem updateWhere_mem_snd {p : α → Bool} {f : α → α} {l : List α} {b : α}
    (hb : b ∈ l) (hp : p b = true) : f b ∈ (updateWhere p f l).2 := by
  induction l with
  | nil => cases hb
  | cons r rs ih =>
    rcases List.mem_cons.mp hb with h1 | h1
    · subst h1
      simp only [updateWhere, hp, if_true]
      exact List.mem_cons_self _ _
    · by_cases hpr : p r
      · simp only [updateWhere, hpr, if_true]
        exact List.mem_cons_of_mem _ (ih h1)
      · simp only [updateWhere, hpr, if_false]
        exact ih h1

theorem updateWhere_snd_not_isEmpty {p : α → Bool} {f : α → α} {l : List α}
    {b : α} (hb : b ∈ l) (hp : p b = true) :
    (updateWhere p f l).2.isEmpty = false := by
  have := updateWhere_mem_snd (f := f) hb hp
  cases h : (updateWhere p f l).2 with
  | nil => rw [h] at this; cases this
  | cons x xs => simp [List.isEmpty]

theorem updateWhere_snd_head {p : α → Bool} {f : α → α} {l : List α} {a : α}
    (h : l.find? p = some a) :
    (updateWhere p f l).2.head? = some (f a) := by
  induction l with
  | nil => simp [List.find?] at h
  | cons r rs ih =>
    by_cases hp : p r
    · rw [List.find?_cons_of_pos _ hp] at h
      injection h with h
      subst h
      simp [updateWhere, hp]
    · rw [List.find?_cons_of_neg _ hp] at h
      simp only [updateWhere, hp, if_false]
      exact ih h

theorem updateWhere_filter_length {p : α → Bool} {f : α → α} {q : α → Bool}
    (hq : ∀ b, q (f b) = q b) (l : List α) :
    ((updateWhere p f l).1.filter q).length = (l.filter q).length := by
  induction l with
  | nil => simp [updateWhere]
  | cons r rs ih =>
    by_cases hp : p r
    · simp only [updateWhere, hp, if_true, List.filter_cons, hq r]
      by_cases hqr : q r = true <;> simp [hqr, ih]
    · simp only [updateWhere, hp, if_false, List.filter_cons]
      by_cases hqr : q r = true <;> simp [hqr, ih]

/-! Concrete fixtures used by witnesses, counterexamples and evaluation
theorems. -/

/-- An active contractor/jetty/operator with id 1. -/
def ent1 : Entity := { id := 1, is_active := true }

/-- A stock row: pair (1,1), 3 tons, version 1. -/
def row3 : StockRow :=
  { id := 1, contractor_id := 1, jetty_id := 1, tonnage := 3,
    last_updated := 0, version := 1 }

/-- A database holding only the stock row `row3`. -/
def dbRow3 : DB :=
  { contractors := [ent1], jetties := [ent1], users := [ent1],
    stock := [row3], adjustments := [], productionRecords := [],
    bargingRecords := [], auditLog := [],
    nextStockId := 2, nextAdjId := 1, nextProdId := 1, nextBargeId := 1 }

/-! C10 -/

/-- C10: `updateStockFromProduction` applies its tonnage argument without
any sign or non-negativity validation: for every existing stock row and
every tonnage `t` (including `t ≤ 0`), a call that passes the version check
(which the isolated call always does) returns successfully and the new
state holds the row with tonnage `current + t` (possibly negative) and
version incremented by 1. -/
theorem updateStockFromProduction_applies_any_delta
    (now : Nat) (db : DB) (cId jId : Nat) (t : Rat) (s : StockRow)
    (hs : findStockPair db.stock cId jId = some s) :
    ∃ db', updateStockFromProduction now db cId jId t = .ok db' ∧
      { s with tonnage := s.tonnage + t, last_updated := now,
               version := s.version + 1 } ∈ db'.stock := by
  have hmem : s ∈ db.stock := List.mem_of_find?_eq_some hs
  have hp : (fun r : StockRow => r.id == s.id && r.version == s.version) s
      = true := by simp
  unfold updateStockFromProduction updateStockFromProductionW
  rw [hs]
  simp only [id_eq]
  cases hfind : db.stock.find?
      (fun r => r.id == s.id && r.version == s.version) with
  | none =>
    exact absurd hp (by simpa using (List.find?_eq_none.mp hfind s hmem))
  | some w =>
    refine ⟨_, rfl, ?_⟩
    exact updateWhere_mem_fst (p := fun r : StockRow => r.id == s.id) hmem
      (by simp)

/-- Witness for C10 at a concrete negative delta: stock 3, delta −5 yields a
row with tonnage −2 and version 2. -/
theorem updateStockFromProduction_applies_any_delta_witness :
    ∃ db', updateStockFromProduction 7 dbRow3 1 1 (-5) = .ok db' ∧
      { row3 with tonnage := row3.tonnage + (-5), last_updated := 7,
                  version := row3.version + 1 } ∈ db'.stock :=
  updateStockFromProduction_applies_any_delta 7 dbRow3 1 1 (-5) row3 (by decide)

/-! C9 -/

/-- C9: in `createBargingRecord` the tonnage-positivity check runs only
after the stock-existence check: with valid active entities, non-positive
tonnage and no stock row for the pair, the call fails with the
`'No stock found for contractor … at jetty …'` error, not the
`'Barging tonnage must be positive'` error. -/
theorem createBargingRecord_stock_check_precedes_sign_check
    (now : Nat) (db : DB) (input : CreateBargingRecordInput)
    (c j o : Entity)
    (hc : db.contractors.find? (fun e => e.id == input.contractor_id) = some c)
    (hca : c.is_active = true)
    (hj : db.jetties.find? (fun e => e.id == input.jetty_id) = some j)
    (hja : j.is_active = true)
    (ho : db.users.find? (fun e => e.id == input.operator_id) = some o)
    (hoa : o.is_active = true)
    (hs : findStockPair db.stock input.contractor_id input.jetty_id = none)
    (_ht : input.tonnage ≤ 0) :
    createBargingRecord now db input
      = .error (.noStockFound input.contractor_id input.jetty_id) := by
  unfold createBargingRecord createBargingRecordW
  rw [hc, hj, ho, hs]
  simp [hca, hja, hoa]

/-- Witness for C9: zero tonnage against an absent stock row reports the
missing stock, not the non-positive tonnage. -/
theorem createBargingRecord_stock_check_precedes_sign_check_witness :
    createBargingRecord 0
      { dbRow3 with stock := [] }
      { date_time := 0, contractor_id := 1, ship_batch_number := "B-1",
        tonnage := 0, jetty_id := 1, buyer := none,
        loading_document := none, operator_id := 1, notes := none }
      = .error (.noStockFound 1 1) :=
  createBargingRecord_stock_check_precedes_sign_check 0 _ _ ent1 ent1 ent1
    (by decide) (by decide) (by decide) (by decide) (by decide) (by decide)
    (by decide) (by decide)

/-! C8 -/

/-- C8: approving an adjustment fails with `'Stock adjustment not found'`
when no such adjustment exists and with `'Stock adjustment is already
approved'` when `approved_by` is already set (an error aborts the
transaction, so the original approver and timestamp stay as they are); on
success `approved_by`/`approved_at` are set on the journal row, the call
returns that row, and the stock table is untouched. -/
theorem approveStockAdjustment_spec (now : Nat) (db : DB)
    (adjustmentId approvedBy : Nat) :
    (db.adjustments.find? (fun a => a.id == adjustmentId) = none →
      approveStockAdjustment now db adjustmentId approvedBy
        = .error .adjustmentNotFound)
    ∧ (∀ adj, db.adjustments.find? (fun a => a.id == adjustmentId) = some adj →
        adj.approved_by.isSome = true →
        approveStockAdjustment now db adjustmentId approvedBy
          = .error .adjustmentAlreadyApproved)
    ∧ (∀ adj, db.adjustments.find? (fun a => a.id == adjustmentId) = some adj →
        adj.approved_by = none →
        ∃ db', approveStockAdjustment now db adjustmentId approvedBy
            = .ok (db', { adj with approved_by := some approvedBy,
                                   approved_at := some now })
          ∧ db'.stock = db.stock
          ∧ { adj with approved_by := some approvedBy,
                       approved_at := some now } ∈ db'.adjustments) := by
  refine ⟨?_, ?_, ?_⟩
  · intro h
    unfold approveStockAdjustment
    rw [h]
  · intro adj h hsome
    unfold approveStockAdjustment
    rw [h]
    simp [hsome]
  · intro adj h hnone
    have hmem : adj ∈ db.adjustments := List.mem_of_find?_eq_some h
    have hpadj := List.find?_some h
    unfold approveStockAdjustment
    rw [h]
    simp only [hnone, Option.isSome_none, Bool.false_eq_true, if_false,
      Bool.not_false, if_true]
    rw [updateWhere_snd_head (f := fun a =>
      { a with approved_by := some approvedBy, approved_at := some now }) h]
    exact ⟨_, rfl, rfl, updateWhere_mem_fst hmem hpadj⟩

/-- An unapproved journal row used by the C8 witness. -/
def adjPending : AdjRow :=
  { id := 1, stock_id := 1, adjusted_by := 2, previous_tonnage := 3,
    new_tonnage := 5, adjustment_amount := 2, reason := "manual_correction",
    reason_description := "recount", reference_document := none,
    attachment := none, approved_by := none, approved_at := none }

/-- A database holding the pending adjustment `adjPending`. -/
def dbAdj : DB := { dbRow3 with adjustments := [adjPending], nextAdjId := 2 }

/-- Witness for C8: approving the pending adjustment with approver 9 at
tick 4 succeeds, sets the approval fields and leaves the stock alone. -/
theorem approveStockAdjustment_spec_witness :
    ∃ db', approveStockAdjustment 4 dbAdj 1 9
        = .ok (db', { adjPending with approved_by := some 9,
                                      approved_at := some 4 })
      ∧ db'.stock = dbAdj.stock
      ∧ { adjPending with approved_by := some 9,
                          approved_at := some 4 } ∈ db'.adjustments :=
  (approveStockAdjustment_spec 4 dbAdj 1 9).2.2 adjPending (by decide) (by decide)

/-! C7 -/

/-- C7: a production-intake call with `tonnage ≤ 0` is rejected by the zod
schema (`tonnage: z.number().positive()`) before the handler runs, so
nothing is persisted; with positive tonnage the handler fails with three
distinct errors for missing-or-inactive contractor, jetty and operator, in
that order. -/
theorem productionCreateEndpoint_validation (now : Nat) (db : DB)
    (input : CreateProductionRecordInput) :
    (input.tonnage ≤ 0 →
      productionCreateEndpoint now db input = .error .invalidTonnage)
    ∧ (0 < input.tonnage →
        findActive db.contractors input.contractor_id = none →
        productionCreateEndpoint now db input
          = .error .contractorNotFoundOrInactive)
    ∧ (0 < input.tonnage →
        (∃ c, findActive db.contractors input.contractor_id = some c) →
        findActive db.jetties input.jetty_id = none →
        productionCreateEndpoint now db input
          = .error .jettyNotFoundOrInactive)
    ∧ (0 < input.tonnage →
        (∃ c, findActive db.contractors input.contractor_id = some c) →
        (∃ j, findActive db.jetties input.jetty_id = some j) →
        findActive db.users input.operator_id = none →
        productionCreateEndpoint now db input
          = .error .operatorNotFoundOrInactive) := by
  refine ⟨?_, ?_, ?_, ?_⟩
  · intro ht
    unfold productionCreateEndpoint
    rw [if_neg (not_lt.mpr ht)]
  · intro ht hc
    unfold productionCreateEndpoint createProductionRecord
      createProductionRecordW
    rw [if_pos ht, hc]
  · intro ht ⟨c, hc⟩ hj
    unfold productionCreateEndpoint createProductionRecord
      createProductionRecordW
    rw [if_pos ht, hc, hj]
  · intro ht ⟨c, hc⟩ ⟨j, hj⟩ ho
    unfold productionCreateEndpoint createProductionRecord
      createProductionRecordW
    rw [if_pos ht, hc, hj, ho]

/-- Witness for C7: tonnage −1 is rejected as invalid before anything runs. -/
theorem productionCreateEndpoint_validation_witness :
    productionCreateEndpoint 0 dbRow3
      { date_time := 0, contractor_id := 1, truck_number := "T-1",
        tonnage := -1, coal_grade := "high", jetty_id := 1,
        document_photo := none, operator_id := 1, notes := none }
      = .error .invalidTonnage :=
  (productionCreateEndpoint_validation 0 dbRow3 _).1 (by norm_num)

/-! C5 -/

/-- C5: exact-balance edge case.  For a stock row with tonnage `T > 0`, an
outflow of exactly `T` tons succeeds and the resulting row has tonnage 0
and version incremented by exactly 1 — both through the barging handler
(with valid active entities) and through `updateStockFromBarging`. -/
theorem exact_balance_outflow (now : Nat) (db : DB) :
    (∀ (input : CreateBargingRecordInput) (c j o : Entity) (s : StockRow),
      db.contractors.find? (fun e => e.id == input.contractor_id) = some c →
      c.is_active = true →
      db.jetties.find? (fun e => e.id == input.jetty_id) = some j →
      j.is_active = true →
      db.users.find? (fun e => e.id == input.operator_id) = some o →
      o.is_active = true →
      findStockPair db.stock input.contractor_id input.jetty_id = some s →
      0 < s.tonnage → input.tonnage = s.tonnage →
      ∃ db' r, createBargingRecord now db input = .ok (db', r) ∧
        { s with tonnage := 0, last_updated := now, version := s.version + 1 }
          ∈ db'.stock)
    ∧ (∀ (cId jId : Nat) (t : Rat) (s : StockRow),
      findStockPair db.stock cId jId = some s →
      0 < s.tonnage → t = s.tonnage →
      ∃ db', updateStockFromBarging now db cId jId t = .ok db' ∧
        { s with tonnage := 0, last_updated := now, version := s.version + 1 }
          ∈ db'.stock) := by
  constructor
  · intro input c j o s hc hca hj hja ho hoa hs hpos heq
    have hmem : s ∈ db.stock := List.mem_of_find?_eq_some hs
    have hpr : (fun r : StockRow =>
        r.id == s.id && r.version == s.version) s = true := by simp
    unfold createBargingRecord createBargingRecordW
    rw [hc, hj, ho, hs]
    simp only [hca, hja, hoa, Bool.not_true, Bool.false_eq_true, if_false,
      id_eq, heq]
    rw [if_neg (not_le.mpr hpos), if_neg (lt_irrefl s.tonnage),
      updateWhere_snd_not_isEmpty hmem hpr]
    refine ⟨_, _, rfl, ?_⟩
    simp only [sub_self]
    exact updateWhere_mem_fst hmem hpr
  · intro cId jId t s hs hpos heq
    have hmem : s ∈ db.stock := List.mem_of_find?_eq_some hs
    have hpr : (fun r : StockRow =>
        r.id == s.id && r.version == s.version) s = true := by simp
    unfold updateStockFromBarging updateStockFromBargingW
    rw [hs]
    simp only [id_eq, heq]
    rw [if_neg (lt_irrefl s.tonnage)]
    cases hfind : db.stock.find?
        (fun r => r.id == s.id && r.version == s.version) with
    | none =>
      exact absurd hpr (by simpa using (List.find?_eq_none.mp hfind s hmem))
    | some w =>
      refine ⟨_, rfl, ?_⟩
      simp only [sub_self]
      exact updateWhere_mem_fst (p := fun r : StockRow => r.id == s.id)
        hmem (by simp)

/-- Witness for C5: outflow of exactly 3 tons against balance 3 leaves
tonnage 0 and version 2. -/
theorem exact_balance_outflow_witness :
    ∃ db', updateStockFromBarging 6 dbRow3 1 1 3 = .ok db' ∧
      { row3 with tonnage := 0, last_updated := 6,
                  version := row3.version + 1 } ∈ db'.stock :=
  (exact_balance_outflow 6 dbRow3).2 1 1 3 row3 (by decide) (by decide)
    (by decide)

/-! Non-negativity preservation helpers (used by the C1 theorem). -/

theorem productionCreateEndpoint_ok_nonneg (now : Nat) (db : DB)
    (input : CreateProductionRecordInput) (db' : DB) (r : ProdRec)
    (h : productionCreateEndpoint now db input = .ok (db', r))
    (hnn : ∀ s ∈ db.stock, 0 ≤ s.tonnage) :
    ∀ s ∈ db'.stock, 0 ≤ s.tonnage := by
  unfold productionCreateEndpoint at h
  by_cases ht : 0 < input.tonnage
  swap
  · rw [if_neg ht] at h
    cases h
  rw [if_pos ht] at h
  unfold createProductionRecord createProductionRecordW at h
  cases hc : findActive db.contractors input.contractor_id with
  | none => rw [hc] at h; cases h
  | some c =>
  rw [hc] at h
  cases hj : findActive db.jetties input.jetty_id with
  | none => rw [hj] at h; cases h
  | some j =>
  rw [hj] at h
  cases ho : findActive db.users input.operator_id with
  | none => rw [ho] at h; cases h
  | some o =>
  rw [ho] at h
  dsimp only [id_eq] at h
  cases hs : findStockPair db.stock input.contractor_id input.jetty_id with
  | none =>
    rw [hs] at h
    injection h with h
    injection h with h1 _
    subst h1
    intro s hsmem
    simp only [List.mem_append, List.mem_singleton] at hsmem
    rcases hsmem with hsmem | hsmem
    · exact hnn s hsmem
    · subst hsmem
      exact le_of_lt ht
  | some cur =>
    rw [hs] at h
    injection h with h
    injection h with h1 _
    subst h1
    intro s hsmem
    simp only at hsmem
    rcases mem_updateWhere_fst hsmem with hsmem | ⟨b, _, _, rfl⟩
    · exact hnn s hsmem
    · have hcur : 0 ≤ cur.tonnage := hnn cur (List.mem_of_find?_eq_some hs)
      simpa using add_nonneg hcur (le_of_lt ht)

theorem createBargingRecord_ok_nonneg (now : Nat) (db : DB)
    (input : CreateBargingRecordInput) (db' : DB) (r : BargeRec)
    (h : createBargingRecord now db input = .ok (db', r))
    (hnn : ∀ s ∈ db.stock, 0 ≤ s.tonnage) :
    ∀ s ∈ db'.stock, 0 ≤ s.tonnage := by
  unfold createBargingRecord createBargingRecordW at h
  cases hc : db.contractors.find? (fun e => e.id == input.contractor_id) with
  | none => rw [hc] at h; cases h
  | some c =>
  rw [hc] at h
  by_cases hca : c.is_active
  swap
  · simp [hca] at h
  simp only [hca, Bool.not_true, Bool.false_eq_true, if_false] at h
  cases hj : db.jetties.find? (fun e => e.id == input.jetty_id) with
  | none => rw [hj] at h; cases h
  | some j =>
  rw [hj] at h
  by_cases hja : j.is_active
  swap
  · simp [hja] at h
  simp only [hja, Bool.not_true, Bool.false_eq_true, if_false] at h
  cases ho : db.users.find? (fun e => e.id == input.operator_id) with
  | none => rw [ho] at h; cases h
  | some o =>
  rw [ho] at h
  by_cases hoa : o.is_active
  swap
  · simp [hoa] at h
  simp only [hoa, Bool.not_true, Bool.false_eq_true, if_false] at h
  cases hs : findStockPair db.stock input.contractor_id input.jetty_id with
  | none => rw [hs] at h; cases h
  | some cur =>
  rw [hs] at h
  dsimp only [id_eq] at h
  by_cases htle : input.tonnage ≤ 0
  · rw [if_pos htle] at h
    cases h
  rw [if_neg htle] at h
  by_cases hins : cur.tonnage < input.tonnage
  · rw [if_pos hins] at h
    cases h
  rw [if_neg hins] at h
  by_cases hemp : (updateWhere
      (fun r => r.id == cur.id && r.version == cur.version)
      (fun r => { r with tonnage := cur.tonnage - input.tonnage,
                         last_updated := now, version := r.version + 1 })
      db.stock).2.isEmpty
  · rw [if_pos hemp] at h
    cases h
  rw [if_neg hemp] at h
  injection h with h
  injection h with h1 _
  subst h1
  intro s hsmem
  simp only at hsmem
  rcases mem_updateWhere_fst hsmem with hsmem | ⟨b, _, _, rfl⟩
  · exact hnn s hsmem
  · simpa using sub_nonneg.mpr (not_lt.mp hins)

theorem createStockAdjustment_ok_nonneg (now : Nat) (db : DB)
    (input : CreateStockAdjustmentInput) (db' : DB) (a : AdjRow)
    (h : createStockAdjustment now db input = .ok (db', a))
    (hnn : ∀ s ∈ db.stock, 0 ≤ s.tonnage) :
    ∀ s ∈ db'.stock, 0 ≤ s.tonnage := by
  unfold createStockAdjustment createStockAdjustmentW at h
  cases ho : db.stock.find? (fun r => r.id == input.stock_id) with
  | none => rw [ho] at h; cases h
  | some orig =>
  rw [ho] at h
  dsimp only [id_eq] at h
  by_cases hneg : orig.tonnage + input.adjustment_amount < 0
  · rw [if_pos hneg] at h
    cases h
  rw [if_neg hneg] at h
  cases hchk : db.stock.find?
      (fun r => r.id == input.stock_id && r.version == orig.version) with
  | none => rw [hchk] at h; cases h
  | some w =>
  rw [hchk] at h
  injection h with h
  injection h with h1 _
  subst h1
  intro s hsmem
  simp only at hsmem
  rcases mem_updateWhere_fst hsmem with hsmem | ⟨b, _, _, rfl⟩
  · exact hnn s hsmem
  · simpa using not_lt.mp hneg

/-- Shared helper: a manual adjustment whose result would be negative fails
with the `'Stock cannot be negative'` error (thrown before the transaction,
so nothing is written). -/
theorem adjustment_negative_fails (now : Nat) (db : DB)
    (input : CreateStockAdjustmentInput) (s : StockRow)
    (hfind : db.stock.find? (fun r => r.id == input.stock_id) = some s)
    (hneg : s.tonnage + input.adjustment_amount < 0) :
    createStockAdjustment now db input = .error .stockCannotBeNegative := by
  unfold createStockAdjustment createStockAdjustmentW
  rw [hfind]
  dsimp only
  rw [if_pos hneg]

/-- Shared helper: a barging outflow larger than the available balance fails
with the amount-carrying `'Insufficient stock. Available: …, Requested: …'`
error (thrown before any insert in the transaction). -/
theorem barging_insufficient_fails (now : Nat) (db : DB)
    (input : CreateBargingRecordInput) (c j o : Entity) (s : StockRow)
    (hc : db.contractors.find? (fun e => e.id == input.contractor_id) = some c)
    (hca : c.is_active = true)
    (hj : db.jetties.find? (fun e => e.id == input.jetty_id) = some j)
    (hja : j.is_active = true)
    (ho : db.users.find? (fun e => e.id == input.operator_id) = some o)
    (hoa : o.is_active = true)
    (hs : findStockPair db.stock input.contractor_id input.jetty_id = some s)
    (htpos : 0 < input.tonnage)
    (hneg : s.tonnage - input.tonnage < 0) :
    createBargingRecord now db input
      = .error (.insufficientStock s.tonnage input.tonnage) := by
  unfold createBargingRecord createBargingRecordW
  rw [hc, hj, ho, hs]
  simp only [hca, hja, hoa, Bool.not_true, Bool.false_eq_true, if_false]
  rw [if_neg (not_le.mpr htpos), if_pos (sub_neg.mp hneg)]

/-! C1 -/

/-- C1 (amended): across the three reachable mutations — production intake
(endpoint: zod requires tonnage > 0), barging outflow and manual
adjustment — every successful call preserves non-negativity of every stock
row's tonnage; an adjustment whose result would be negative fails with the
`'Stock cannot be negative'` error and a barging outflow whose result would
be negative fails with the amount-carrying `InsufficientStock` error; each
of these failures happens before any write (an error aborts the enclosing
transaction), so tonnage and version are unchanged. -/
theorem stock_nonneg_invariant (now : Nat) (db : DB)
    (hnn : ∀ s ∈ db.stock, 0 ≤ s.tonnage) :
    (∀ input db' r, productionCreateEndpoint now db input = .ok (db', r) →
      ∀ s ∈ db'.stock, 0 ≤ s.tonnage)
    ∧ (∀ input db' r, bargingCreateEndpoint now db input = .ok (db', r) →
      ∀ s ∈ db'.stock, 0 ≤ s.tonnage)
    ∧ (∀ input db' a, createStockAdjustment now db input = .ok (db', a) →
      ∀ s ∈ db'.stock, 0 ≤ s.tonnage)
    ∧ (∀ input s, db.stock.find? (fun r => r.id == input.stock_id) = some s →
      s.tonnage + input.adjustment_amount < 0 →
      createStockAdjustment now db input = .error .stockCannotBeNegative)
    ∧ (∀ (input : CreateBargingRecordInput) (c j o : Entity) (s : StockRow),
      db.contractors.find? (fun e => e.id == input.contractor_id) = some c →
      c.is_active = true →
      db.jetties.find? (fun e => e.id == input.jetty_id) = some j →
      j.is_active = true →
      db.users.find? (fun e => e.id == input.operator_id) = some o →
      o.is_active = true →
      findStockPair db.stock input.contractor_id input.jetty_id = some s →
      0 < input.tonnage → s.tonnage - input.tonnage < 0 →
      createBargingRecord now db input
        = .error (.insufficientStock s.tonnage input.tonnage)) := by
  refine ⟨?_, ?_, ?_, ?_, ?_⟩
  · intro input db' r h
    exact productionCreateEndpoint_ok_nonneg now db input db' r h hnn
  · intro input db' r h
    unfold bargingCreateEndpoint at h
    by_cases ht : 0 < input.tonnage
    · rw [if_pos ht] at h
      exact createBargingRecord_ok_nonneg now db input db' r h hnn
    · rw [if_neg ht] at h
      cases h
  · intro input db' a h
    exact createStockAdjustment_ok_nonneg now db input db' a h hnn
  · intro input s hfind hneg
    exact adjustment_negative_fails now db input s hfind hneg
  · intro input c j o s hc hca hj hja ho hoa hs htpos hneg
    exact barging_insufficient_fails now db input c j o s hc hca hj hja ho
      hoa hs htpos hneg

/-- The spec's own non-negativity example: a balance of 1000 tons. -/
def row1000 : StockRow :=
  { id := 1, contractor_id := 1, jetty_id := 1, tonnage := 1000,
    last_updated := 0, version := 1 }

/-- A database holding only `row1000`. -/
def db1000 : DB := { dbRow3 with stock := [row1000] }

/-- The spec's example mutation: a manual adjustment of −1500. -/
def adjMinus1500 : CreateStockAdjustmentInput :=
  { stock_id := 1, adjustment_amount := -1500, reason := "manual_correction",
    reason_description := "spec example", reference_document := none,
    attachment := none, adjusted_by := 2 }

/-- C1 counterexample: at the spec's own example (delta −1500 against
tonnage 1000, here issued as a manual adjustment), the call fails with the
`'Stock cannot be negative'` error — a different error kind from
`InsufficientStock`, and one that carries no available/requested amounts —
so "fails with InsufficientStock" is false as stated for the
manual-adjustment mutation. -/
theorem stock_nonneg_error_kind_counterexample :
    createStockAdjustment 0 db1000 adjMinus1500
      = .error .stockCannotBeNegative
    ∧ ¬ createStockAdjustment 0 db1000 adjMinus1500
        = .error (.insufficientStock 1000 1500)
    ∧ ¬ createStockAdjustment 0 db1000 adjMinus1500
        = .error (.insufficientStock 1000 (-1500)) := by
  norm_num [createStockAdjustment, createStockAdjustmentW, db1000, dbRow3,
    adjMinus1500, row1000]
  exact ⟨by decide, by decide⟩

/-- A manual adjustment of −5 (used by the C1 witness against balance 3). -/
def adjMinus5 : CreateStockAdjustmentInput :=
  { stock_id := 1, adjustment_amount := -5, reason := "waste",
    reason_description := "w", reference_document := none,
    attachment := none, adjusted_by := 2 }

/-- Witness for C1 (amended): against a balance of 3 tons, the adjustment
−5 fails with the `'Stock cannot be negative'` error. -/
theorem stock_nonneg_invariant_witness :
    createStockAdjustment 5 dbRow3 adjMinus5
      = .error .stockCannotBeNegative :=
  (stock_nonneg_invariant 5 dbRow3 (by decide)).2.2.2.1 adjMinus5 row3
    (by decide) (by norm_num [row3, adjMinus5])

/-! C4 -/

/-- C4 (amended): every outflow or adjustment whose signed delta added to
the current tonnage would be negative fails before any write; the barging
handler's error carries both the available and the requested amounts, but
`updateStockFromBarging` fails with the bare `'Insufficient stock
available'` message (no amounts) and a manual adjustment fails with
`'Stock cannot be negative'` (no amounts). -/
theorem insufficient_outflow_fails (now : Nat) (db : DB) :
    (∀ (input : CreateBargingRecordInput) (c j o : Entity) (s : StockRow),
      db.contractors.find? (fun e => e.id == input.contractor_id) = some c →
      c.is_active = true →
      db.jetties.find? (fun e => e.id == input.jetty_id) = some j →
      j.is_active = true →
      db.users.find? (fun e => e.id == input.operator_id) = some o →
      o.is_active = true →
      findStockPair db.stock input.contractor_id input.jetty_id = some s →
      0 < input.tonnage → s.tonnage - input.tonnage < 0 →
      createBargingRecord now db input
        = .error (.insufficientStock s.tonnage input.tonnage))
    ∧ (∀ (cId jId : Nat) (t : Rat) (s : StockRow),
      findStockPair db.stock cId jId = some s → s.tonnage - t < 0 →
      updateStockFromBarging now db cId jId t
        = .error .insufficientStockAvailable)
    ∧ (∀ input s, db.stock.find? (fun r => r.id == input.stock_id) = some s →
      s.tonnage + input.adjustment_amount < 0 →
      createStockAdjustment now db input = .error .stockCannotBeNegative) := by
  refine ⟨?_, ?_, ?_⟩
  · intro input c j o s hc hca hj hja ho hoa hs htpos hneg
    exact barging_insufficient_fails now db input c j o s hc hca hj hja ho
      hoa hs htpos hneg
  · intro cId jId t s hs hneg
    unfold updateStockFromBarging updateStockFromBargingW
    rw [hs]
    dsimp only
    rw [if_pos (sub_neg.mp hneg)]
  · intro input s hfind hneg
    exact adjustment_negative_fails now db input s hfind hneg

/-- C4 counterexample: an outflow of 5 against a balance of 3 through
`updateStockFromBarging` fails with the bare `'Insufficient stock
available'` error, not with an error carrying available = 3 and
requested = 5, so "the error message reports both the available and the
requested amounts" is false as stated. -/
theorem insufficient_outflow_message_counterexample :
    updateStockFromBarging 0 dbRow3 1 1 5
      = .error .insufficientStockAvailable
    ∧ ¬ updateStockFromBarging 0 dbRow3 1 1 5
        = .error (.insufficientStock 3 5) := by
  norm_num [updateStockFromBarging, updateStockFromBargingW, dbRow3, row3,
    findStockPair]
  decide

/-- A barging outflow of 5 tons for pair (1,1), used by the C4 witness. -/
def barge5 : CreateBargingRecordInput :=
  { date_time := 0, contractor_id := 1, ship_batch_number := "B-5",
    tonnage := 5, jetty_id := 1, buyer := none, loading_document := none,
    operator_id := 1, notes := none }

/-- Witness for C4 (amended): the barging handler refuses an outflow of 5
against balance 3 with the error carrying available = 3, requested = 5. -/
theorem insufficient_outflow_fails_witness :
    createBargingRecord 0 dbRow3 barge5 = .error (.insufficientStock 3 5) :=
  (insufficient_outflow_fails 0 dbRow3).1 barge5 ent1 ent1 ent1 row3
    (by decide) (by decide) (by decide) (by decide) (by decide) (by decide)
    (by decide) (by decide) (by norm_num [row3, barge5])

/-! C6 -/

/-- C6 (amended): in sequential execution `createProductionRecord` preserves
the at-most-one-stock-row-per-(contractor, jetty) invariant, because
creation is guarded by a prior `find`.  (The schema itself has no
uniqueness constraint on the pair, so a concurrent creator inside the
read-write window can still produce a second row — see the accompanying
counterexample.) -/
theorem one_row_per_pair_sequential (now : Nat) (db : DB)
    (input : CreateProductionRecordInput)
    (huniq : ∀ cI jI : Nat, (db.stock.filter
      (fun s => s.contractor_id == cI && s.jetty_id == jI)).length ≤ 1) :
    ∀ db' r, createProductionRecord now db input = .ok (db', r) →
      ∀ cI jI : Nat, (db'.stock.filter
        (fun s => s.contractor_id == cI && s.jetty_id == jI)).length ≤ 1 := by
  intro db' r h
  unfold createProductionRecord createProductionRecordW at h
  cases hc : findActive db.contractors input.contractor_id with
  | none => rw [hc] at h; cases h
  | some c =>
  rw [hc] at h
  cases hj : findActive db.jetties input.jetty_id with
  | none => rw [hj] at h; cases h
  | some j =>
  rw [hj] at h
  cases ho : findActive db.users input.operator_id with
  | none => rw [ho] at h; cases h
  | some o =>
  rw [ho] at h
  dsimp only [id_eq] at h
  cases hs : findStockPair db.stock input.contractor_id input.jetty_id with
  | some cur =>
    rw [hs] at h
    injection h with h
    injection h with h1 _
    subst h1
    intro cI jI
    dsimp only
    have heq := updateWhere_filter_length
      (p := fun r : StockRow => r.id == cur.id && r.version == cur.version)
      (f := fun r : StockRow =>
        { r with tonnage := cur.tonnage + input.tonnage,
                 last_updated := now, version := cur.version + 1 })
      (q := fun s : StockRow => s.contractor_id == cI && s.jetty_id == jI)
      (fun b => rfl) db.stock
    rw [heq]
    exact huniq cI jI
  | none =>
    rw [hs] at h
    injection h with h
    injection h with h1 _
    subst h1
    intro cI jI
    dsimp only
    rw [List.filter_append]
    by_cases hpair :
        (input.contractor_id == cI && input.jetty_id == jI) = true
    · simp only [Bool.and_eq_true, beq_iff_eq] at hpair
      obtain ⟨rfl, rfl⟩ := hpair
      have h0 : db.stock.filter
          (fun s => s.contractor_id == input.contractor_id &&
            s.jetty_id == input.jetty_id) = [] := by
        rw [List.filter_eq_nil_iff]
        intro x hx
        simpa using List.find?_eq_none.mp hs x hx
      rw [h0]
      simp
    · have h1 : List.filter
          (fun s : StockRow => s.contractor_id == cI && s.jetty_id == jI)
          [{ id := db.nextStockId, contractor_id := input.contractor_id,
             jetty_id := input.jetty_id, tonnage := input.tonnage,
             last_updated := now, version := 1 }] = [] := by
        simp only [List.filter, hpair]
      rw [h1, List.append_nil]
      exact huniq cI jI

/-- A database with active entities and an empty stock table. -/
def dbEmptyStock : DB := { dbRow3 with stock := [] }

/-- The stock row committed by a concurrent creator for pair (1,1). -/
def rowRace : StockRow :=
  { id := 5, contractor_id := 1, jetty_id := 1, tonnage := 5,
    last_updated := 0, version := 1 }

/-- A concurrent creator that commits `rowRace` between the handler's
stock read and its insert. -/
def midInsert : List StockRow → List StockRow :=
  fun tbl => tbl ++ [rowRace]

/-- A production intake of 7 tons for pair (1,1). -/
def prod7 : CreateProductionRecordInput :=
  { date_time := 0, contractor_id := 1, truck_number := "T-7", tonnage := 7,
    coal_grade := "high", jetty_id := 1, document_photo := none,
    operator_id := 1, notes := none }

/-- C6 counterexample: starting with no stock row for pair (1,1), a
production intake whose pre-read found nothing races with a concurrent
creator; the handler's unconditional insert then succeeds — there is no
`DuplicateKey` rejection anywhere in the schema or handler — leaving the
store with two rows for the pair, so "an attempt to create a stock row for
a pair that already has one fails with DuplicateKey" and "every reachable
store state has exactly one row per pair" are false as stated. -/
theorem one_row_per_pair_counterexample :
    (createProductionRecordW 0 dbEmptyStock midInsert prod7).toOption.map
      (fun p => (p.1.stock.filter
        (fun s => s.contractor_id == 1 && s.jetty_id == 1)).length)
      = some 2 := by
  decide

/-- A production intake of 4 tons for pair (1,1), used by the C6 witness. -/
def prod4 : CreateProductionRecordInput :=
  { date_time := 0, contractor_id := 1, truck_number := "T-4", tonnage := 4,
    coal_grade := "low", jetty_id := 1, document_photo := none,
    operator_id := 1, notes := none }

/-- Witness for C6 (amended): the one-row-per-pair bound holds for the
concrete one-row database and is preserved by a sequential intake. -/
theorem one_row_per_pair_sequential_witness :
    (∀ cI jI : Nat, (dbRow3.stock.filter
      (fun s => s.contractor_id == cI && s.jetty_id == jI)).length ≤ 1)
    ∧ (∀ db' r, createProductionRecord 0 dbRow3 prod4 = .ok (db', r) →
      ∀ cI jI : Nat, (db'.stock.filter
        (fun s => s.contractor_id == cI && s.jetty_id == jI)).length ≤ 1) :=
  ⟨fun cI jI => le_trans (List.length_filter_le _ _) (by decide),
   one_row_per_pair_sequential 0 dbRow3 prod4
     (fun cI jI => le_trans (List.length_filter_le _ _) (by decide))⟩

/-! C2 and C3: the production handler under a version conflict. -/

/-- The stock row pair (1,1) with 100 tons at version 1. -/
def row100 : StockRow :=
  { id := 1, contractor_id := 1, jetty_id := 1, tonnage := 100,
    last_updated := 0, version := 1 }

/-- A database holding only `row100`. -/
def dbV1 : DB := { dbRow3 with stock := [row100] }

/-- The stock row as committed by a concurrent mutator inside the race
window: tonnage 90, version bumped to 2. -/
def rowV2 : StockRow :=
  { id := 1, contractor_id := 1, jetty_id := 1, tonnage := 90,
    last_updated := 2, version := 2 }

/-- Interference: a concurrent mutation commits `rowV2` between the
production handler's stock read and its conditional update. -/
def midBump : List StockRow → List StockRow := fun _ => [rowV2]

/-- A production intake of 10 tons for pair (1,1). -/
def prod10 : CreateProductionRecordInput :=
  { date_time := 1, contractor_id := 1, truck_number := "T-10",
    tonnage := 10, coal_grade := "medium", jetty_id := 1,
    document_photo := none, operator_id := 1, notes := none }

/-- C2 evaluation at the failing input: the handler read version 1, a
concurrent mutation committed version 2, so the
`UPDATE ... WHERE id = 1 AND version = 1` matches no row — and
`createProductionRecord`, which never inspects the affected-row count,
returns the created record successfully: the version conflict is silently
swallowed instead of surfacing as a `ConcurrentModification` error, and
the stock still holds the interfering state (tonnage 90, not 100). -/
theorem production_version_conflict_swallowed :
    (createProductionRecordW 3 dbV1 midBump prod10).toOption.map
      (fun p => (p.1.stock, p.1.productionRecords.length))
      = some ([rowV2], 1) := by
  decide

/-- A production intake of 20 tons for pair (1,1). -/
def prod20 : CreateProductionRecordInput :=
  { date_time := 2, contractor_id := 1, truck_number := "T-20",
    tonnage := 20, coal_grade := "high", jetty_id := 1,
    document_photo := none, operator_id := 1, notes := none }

/-- C3 evaluation at the failing input: `createProductionRecord` runs with
no enclosing transaction; under the version conflict its intake-event
insert commits (the 20-ton production record is present in the result)
while the ledger update is not applied (the stock table still holds the
interfering row, not 90 + 20) — the two parts are not one atomic unit of
work. -/
theorem production_intake_event_without_ledger_write :
    (createProductionRecordW 3 dbV1 midBump prod20).toOption.map
      (fun p => (p.1.productionRecords.map (fun q => q.tonnage), p.1.stock))
      = some ([20], [rowV2]) := by
  decide

end CoalStock
